import Mathlib

/-!
Shallow embedding of `src/cmd/vault-secrets-webhook/registry/registry.go`
(package `registry` of the vault-secrets-webhook) and proofs about it.

Modelling conventions:
* Go byte strings and `string` values are Lean `String`s.
* `logger.Fatal` terminates the whole process; it is embedded as the
  `GoOutcome.fatal` outcome carrying the log message.  A Go runtime panic
  (such as an out-of-range slice index) is embedded as `GoOutcome.crash`.
* External collaborators (the Kubernetes client used by `readDockerSecret`,
  the heroku docker-registry client, the network, `os.Getenv`) are oracles
  bundled in environment records; the control flow around them is translated
  from the source line by line.
* A Go `map[string]T` is an association list in iteration order: the head
  stands for the arbitrary first key produced by `reflect.MapKeys()[0]`,
  and indexing looks the key up in the list.
-/

/-- Outcome of running a piece of the Go code: a normal return value, a
process-terminating `logger.Fatal` with its message, or a runtime panic. -/
inductive GoOutcome (α : Type) where
  | ok (a : α) : GoOutcome α
  | fatal (msg : String) : GoOutcome α
  | crash : GoOutcome α
  deriving DecidableEq, Repr

namespace GoOutcome

/-- The run returned a value. -/
def isOk : GoOutcome α → Bool
  | .ok _ => true
  | _ => false

/-- The run ended in `logger.Fatal` (process termination). -/
def isFatal : GoOutcome α → Bool
  | .fatal _ => true
  | _ => false

/-- The run ended in a runtime panic. -/
def isCrash : GoOutcome α → Bool
  | .crash => true
  | _ => false

end GoOutcome

/-- Splitting a character list at the first `':'`: `none` when no colon
occurs, otherwise the characters before the first colon and the entire
remainder after it.  This is the list-level content of
`strings.SplitN(image, ":", 2)`. -/
def splitFirstColon : List Char → Option (List Char × List Char)
  | [] => none
  | c :: cs =>
    if c = ':' then some ([], cs)
    else
      match splitFirstColon cs with
      | none => none
      | some (a, b) => some (c :: a, b)

/-- Embeds `ParseContainerImage` (registry.go 100-112): the image string is
split by `strings.SplitN(image, ":", 2)`; when no colon is present the code
calls `logger.Fatal("Cannot find tag for image", ...)`, otherwise it returns
the part before the first colon and the whole remainder. -/
def ParseContainerImage (image : String) : GoOutcome (String × String) :=
  match splitFirstColon image.data with
  | none => .fatal "Cannot find tag for image"
  | some (a, b) => .ok (String.mk a, String.mk b)

/-- A JSON value, as produced by the text-level parser of Go's
`encoding/json` before it is mapped onto a struct. -/
inductive Json where
  | null : Json
  | bool (b : Bool) : Json
  | num (n : Int) : Json
  | str (s : String) : Json
  | arr (elems : List Json) : Json
  | obj (fields : List (String × Json)) : Json

/-- Embeds the `Config` struct (registry.go 45-49): the `Cmd` and
`Entrypoint` arrays taken from the blob response, with JSON tags
`"Cmd"` and `"Entrypoint"`. -/
structure Config where
  Cmd : List String
  Entrypoint : List String
  deriving DecidableEq, Repr

/-- Embeds the `BlobResponse` struct (registry.go 40-43): its single field
carries the JSON tag `"config"`.  (The Go field is named `Config`; it is
lowercased here only to avoid clashing with the `Config` type.) -/
structure BlobResponse where
  config : Config
  deriving DecidableEq, Repr

/-- Field lookup in a decoded JSON object, as `encoding/json` performs it
for a struct field with an exact-case tag: when the key occurs several
times the last value wins.  (The case-folding fallback of `encoding/json`
for keys that match no tag exactly is not modelled; every input considered
here uses exact-case keys.) -/
def jsonLookup (fields : List (String × Json)) (key : String) : Option Json :=
  ((fields.filter (fun p => p.1 == key)).getLast?).map (fun p => p.2)

/-- Element-wise decoding of a JSON array's members into Go strings, in
order; a non-string member is a type error. -/
def decodeStrings : List Json → Except String (List String)
  | [] => .ok []
  | .str s :: rest =>
    match decodeStrings rest with
    | .ok ss => .ok (s :: ss)
    | .error e => .error e
  | _ :: _ => .error "cannot unmarshal into string"

/-- `encoding/json` unmarshalling of a JSON value into a Go `[]string`:
`null` leaves the slice at its zero value (empty), an array is decoded
element by element in order, anything else is a type error. -/
def decodeStringList : Json → Except String (List String)
  | .null => .ok []
  | .arr elems => decodeStrings elems
  | _ => .error "cannot unmarshal into []string"

/-- `encoding/json` unmarshalling of a JSON value into the `Config` struct:
an object is decoded field by field through the `"Cmd"` and `"Entrypoint"`
tags, an absent field leaves the zero value (an empty slice), `null` leaves
the whole struct at its zero value, anything else is a type error. -/
def decodeConfig : Json → Except String Config
  | .null => .ok { Cmd := [], Entrypoint := [] }
  | .obj fields =>
    match (match jsonLookup fields "Cmd" with
           | none => Except.ok []
           | some j => decodeStringList j) with
    | .error e => .error e
    | .ok cmd =>
      match (match jsonLookup fields "Entrypoint" with
             | none => Except.ok []
             | some j => decodeStringList j) with
      | .error e => .error e
      | .ok entrypoint => .ok { Cmd := cmd, Entrypoint := entrypoint }
  | _ => .error "cannot unmarshal into Config"

/-- `json.Unmarshal(b, &msg)` for `msg : BlobResponse` (registry.go 91-95),
after the text has been parsed into a `Json` value: the `"config"` tag
selects the nested object, an absent field or a `null` leaves the zero
value, anything else is a type error. -/
def unmarshalBlobResponse : Json → Except String BlobResponse
  | .null => .ok { config := { Cmd := [], Entrypoint := [] } }
  | .obj fields =>
    match (match jsonLookup fields "config" with
           | none => Except.ok ({ Cmd := [], Entrypoint := [] } : Config)
           | some j => decodeConfig j) with
    | .error e => .error e
    | .ok cfg => .ok { config := cfg }
  | _ => .error "cannot unmarshal into BlobResponse"

/-- The fields of `dockerTypes.AuthConfig` that registry.go reads
(`Username` and `Password`, registry.go 165-166). -/
structure AuthConfig where
  Username : String
  Password : String
  deriving DecidableEq, Repr

/-- Embeds `DockerCreds` (registry.go 51-53): `Auths` is a Go
`map[string]dockerTypes.AuthConfig`, modelled as an association list in
iteration order (the head is the key `reflect.MapKeys()[0]` yields). -/
structure DockerCreds where
  Auths : List (String × AuthConfig)
  deriving DecidableEq, Repr

/-- Whether one character list starts with another, structurally. -/
def startsWithList : List Char → List Char → Bool
  | _, [] => true
  | [], _ :: _ => false
  | c :: cs, p :: ps => c == p && startsWithList cs ps

/-- Go's `strings.HasPrefix(s, pre)`: `s` literally begins with the
substring `pre`.  (Defined structurally rather than through
`String.startsWith` so that the kernel can evaluate it.) -/
def startsWithString (s pre : String) : Bool :=
  startsWithList s.data pre.data

/-- Go map indexing `auths[key]`: the value stored under `key`, or the zero
`AuthConfig` when the key is absent. -/
def mapIndex (auths : List (String × AuthConfig)) (key : String) : AuthConfig :=
  match auths.find? (fun p => p.1 == key) with
  | some p => p.2
  | none => { Username := "", Password := "" }

/-- Embeds the `K8s` struct (registry.go 136-146) minus its `clientset`
field, which is an external handle and lives in `KubeEnv` instead. -/
structure K8s where
  Namespace : String
  ImagePullSecrets : String
  RegistryAddress : String
  RegistryName : String
  RegistryUsername : String
  RegistryPassword : String
  Image : String
  deriving DecidableEq, Repr

/-- The fresh `K8s{Namespace: namespace, clientset: clientset}` built at
the top of `GetEntrypointCmd` (registry.go 116): every other field is the
zero string. -/
def initialK8s (ns : String) : K8s :=
  { Namespace := ns
    ImagePullSecrets := ""
    RegistryAddress := ""
    RegistryName := ""
    RegistryUsername := ""
    RegistryPassword := ""
    Image := "" }

/-- Embeds `corev1.Container`: the one field registry.go reads. -/
structure Container where
  image : String
  deriving DecidableEq, Repr

/-- Embeds `corev1.LocalObjectReference` as used in `ImagePullSecrets`. -/
structure LocalObjectReference where
  name : String
  deriving DecidableEq, Repr

/-- Embeds `corev1.PodSpec`: the one field registry.go reads. -/
structure PodSpec where
  imagePullSecrets : List LocalObjectReference
  deriving DecidableEq, Repr

/-- `corev1.DockerConfigJsonKey`, the well-known Secret data key read by
`Load` (registry.go 182). -/
def dockerConfigJsonKey : String := ".dockerconfigjson"

/-- Oracles for the external collaborators of `GetImageBlob`: the value of
the `REGISTRY_SKIP_VERIFY` environment variable, and the heroku
docker-registry client.  `newRegistry true` stands for
`registry.NewInsecure` and `newRegistry false` for `registry.New`
(url, username, password); `manifestConfigDigest` is
`hub.ManifestV2(imageName, tag)` projected to `manifest.Config.Digest`;
`downloadBlob` is `hub.DownloadBlob(imageName, digest)`; `readAll` is
`ioutil.ReadAll(reader)`; `jsonParse` is the text-level half of
`json.Unmarshal`, whose struct-mapping half is `unmarshalBlobResponse`. -/
structure RegistryEnv (Hub Bytes : Type) where
  registrySkipVerify : String
  newRegistry : Bool → String → String → String → Except String Hub
  manifestConfigDigest : Hub → String → String → Except String String
  downloadBlob : Hub → String → String → Except String Bytes
  readAll : Bytes → Except String String
  jsonParse : String → Except String Json

/-- The condition on which `GetImageBlob` (registry.go 59-68) opens an
insecure, verification-bypassing registry session: the string value of the
`REGISTRY_SKIP_VERIFY` environment variable compares equal to `"true"`.
An unset variable reads as `""`. -/
def registrySessionInsecure (registrySkipVerify : String) : Bool :=
  registrySkipVerify == "true"

/-- Embeds `GetImageBlob` (registry.go 55-98): parse the image reference,
open a registry session (insecure exactly when `REGISTRY_SKIP_VERIFY` is
`"true"`), fetch the v2 manifest, download the config blob by its digest,
read it, unmarshal it as JSON, and return `(Entrypoint, Cmd)`.  Every
failure is a `logger.Fatal` with the message the source logs. -/
def GetImageBlob (env : RegistryEnv Hub Bytes)
    (url username password image : String) :
    GoOutcome (List String × List String) :=
  match ParseContainerImage image with
  | .fatal m => .fatal m
  | .crash => .crash
  | .ok (imageName, tag) =>
    match env.newRegistry (registrySessionInsecure env.registrySkipVerify)
        url username password with
    | .error _ => .fatal "Cannot create client for registry"
    | .ok hub =>
      match env.manifestConfigDigest hub imageName tag with
      | .error _ => .fatal "Cannot download manifest for image"
      | .ok digest =>
        match env.downloadBlob hub imageName digest with
        | .error _ => .fatal "Cannot download blob"
        | .ok bytes =>
          match env.readAll bytes with
          | .error _ => .fatal "Cannot read blob"
          | .ok raw =>
            match env.jsonParse raw with
            | .error _ => .fatal "Cannot unmarshal JSON"
            | .ok j =>
              match unmarshalBlobResponse j with
              | .error _ => .fatal "Cannot unmarshal JSON"
              | .ok msg => .ok (msg.config.Entrypoint, msg.config.Cmd)

/-- Whether every stage of `GetImageBlob` succeeds on the given input:
the image reference carries a tag, the session opens, the manifest and the
blob arrive, the blob reads, and its JSON unmarshals.  Stated separately so
that the fail-fast behaviour of `GetImageBlob` can be related to it. -/
def GetImageBlobSucceeds (env : RegistryEnv Hub Bytes)
    (url username password image : String) : Bool :=
  match ParseContainerImage image with
  | .fatal _ => false
  | .crash => false
  | .ok (imageName, tag) =>
    match env.newRegistry (registrySessionInsecure env.registrySkipVerify)
        url username password with
    | .error _ => false
    | .ok hub =>
      match env.manifestConfigDigest hub imageName tag with
      | .error _ => false
      | .ok digest =>
        match env.downloadBlob hub imageName digest with
        | .error _ => false
        | .ok bytes =>
          match env.readAll bytes with
          | .error _ => false
          | .ok raw =>
            match env.jsonParse raw with
            | .error _ => false
            | .ok j =>
              match unmarshalBlobResponse j with
              | .error _ => false
              | .ok _ => true

/-- Embeds `(*K8s).parseDockerConfig` (registry.go 156-167).  The registry
name is `reflect.ValueOf(dockerCreds.Auths).MapKeys()[0]`, an unguarded
index into the key slice: on an empty map it is an out-of-range runtime
panic, embedded as `.crash`.  Otherwise the address gets an `https://`
prefix unless the name already starts with one, and the selected host's
username and password are copied over. -/
def parseDockerConfig (k : K8s) (dockerCreds : DockerCreds) : GoOutcome K8s :=
  match dockerCreds.Auths with
  | [] => .crash
  | (host, _) :: _ =>
    let registryName := host
    let registryAddress :=
      if !(startsWithString registryName "https://") then
        "https://" ++ registryName
      else registryName
    let auth := mapIndex dockerCreds.Auths registryName
    .ok { k with
      RegistryName := registryName
      RegistryAddress := registryAddress
      RegistryUsername := auth.Username
      RegistryPassword := auth.Password }

/-- Oracles for the external collaborators of `Load`: `readDockerSecret`
stands for the Kubernetes client call
`clientset.CoreV1().Secrets(namespace).Get(secretName, ...)` projected to
`secret.Data` (registry.go 148-154), and `unmarshalDockerCreds` for
`json.Unmarshal` of the payload into `DockerCreds` (registry.go 185). -/
structure KubeEnv where
  readDockerSecret : String → String → Except String (List (String × String))
  unmarshalDockerCreds : String → Except String DockerCreds

/-- Go map indexing `data[key]` on a Secret's data: the stored bytes, or
the zero value (empty bytes) when the key is absent. -/
def dataIndex (data : List (String × String)) (key : String) : String :=
  match data.find? (fun p => p.1 == key) with
  | some p => p.2
  | none => ""

/-- Embeds `(*K8s).Load` (registry.go 169-192): record the container's
image; when the pod spec lists at least one image-pull secret, record the
first one's name, and when that name is non-empty read the named Secret,
unmarshal its docker-config payload and parse it with `parseDockerConfig`.
Read and unmarshal failures are `logger.Fatal`. -/
def Load (env : KubeEnv) (k : K8s) (container : Container)
    (podSpec : PodSpec) : GoOutcome K8s :=
  let k := { k with Image := container.image }
  match podSpec.imagePullSecrets with
  | [] => .ok k
  | ref :: _ =>
    let k := { k with ImagePullSecrets := ref.name }
    if k.ImagePullSecrets != "" then
      match env.readDockerSecret k.Namespace k.ImagePullSecrets with
      | .error _ => .fatal "Cannot read imagePullSecrets"
      | .ok data =>
        let dockerConfig := dataIndex data dockerConfigJsonKey
        match env.unmarshalDockerCreds dockerConfig with
        | .error _ =>
          .fatal "Cannot unmarshal docker configuration from imagePullSecrets"
        | .ok dockerCreds => parseDockerConfig k dockerCreds
    else .ok k

/-- Go's `strings.TrimLeft` on character lists: remove the longest leading
run of characters each of which occurs in the cutset. -/
def trimLeftChars (cutset : List Char) : List Char → List Char
  | [] => []
  | c :: cs => if cutset.contains c then trimLeftChars cutset cs else c :: cs

/-- Go's `strings.TrimLeft(s, cutset)`: a character-set trim, not a
substring removal. -/
def trimLeft (s cutset : String) : String :=
  String.mk (trimLeftChars cutset.data s.data)

/-- The image normalisation of `GetEntrypointCmd` (registry.go 119-125):
when a registry name was resolved, the image is passed through
`strings.TrimLeft(image, registryName + "/")`. -/
def normalizeImage (registryName image : String) : String :=
  if registryName != "" then trimLeft image (registryName ++ "/")
  else image

/-- Embeds `GetEntrypointCmd` (registry.go 114-134): build the fresh `K8s`
record, `Load` it from the container and pod spec, trim the registry name
from the image when one was resolved, default the registry address to
`https://registry-1.docker.io/` when none was resolved, and call
`GetImageBlob`. -/
def GetEntrypointCmd (kenv : KubeEnv) (renv : RegistryEnv Hub Bytes)
    (ns : String) (container : Container) (podSpec : PodSpec) :
    GoOutcome (List String × List String) :=
  match Load kenv (initialK8s ns) container podSpec with
  | .fatal m => .fatal m
  | .crash => .crash
  | .ok podInfo =>
    let image := normalizeImage podInfo.RegistryName podInfo.Image
    let registryAddress :=
      if podInfo.RegistryAddress == "" then "https://registry-1.docker.io/"
      else podInfo.RegistryAddress
    GetImageBlob renv registryAddress podInfo.RegistryUsername
      podInfo.RegistryPassword image

/-- Whether every stage of the full resolution `GetEntrypointCmd` succeeds
on the given input: the `Load` stage (secret read, payload decode, auths
parse) completes, and then every registry stage of `GetImageBlob` succeeds
at the derived address, credentials and normalised image.  Stated
separately so that the fail-fast behaviour of the whole resolution can be
related to it. -/
def GetEntrypointCmdSucceeds (kenv : KubeEnv) (renv : RegistryEnv Hub Bytes)
    (ns : String) (container : Container) (podSpec : PodSpec) : Bool :=
  match Load kenv (initialK8s ns) container podSpec with
  | .fatal _ => false
  | .crash => false
  | .ok podInfo =>
    GetImageBlobSucceeds renv
      (if podInfo.RegistryAddress == "" then "https://registry-1.docker.io/"
       else podInfo.RegistryAddress)
      podInfo.RegistryUsername podInfo.RegistryPassword
      (normalizeImage podInfo.RegistryName podInfo.Image)

/-- A registry environment whose every oracle succeeds trivially, for
evaluating the code's control flow at concrete inputs. -/
def stubRegistryEnv : RegistryEnv Unit Unit :=
  { registrySkipVerify := ""
    newRegistry := fun _ _ _ _ => .ok ()
    manifestConfigDigest := fun _ _ _ => .ok ""
    downloadBlob := fun _ _ _ => .ok ()
    readAll := fun _ => .ok ""
    jsonParse := fun _ => .ok .null }

theorem splitFirstColon_append (xs ys : List Char) (h : ':' ∉ xs) :
    splitFirstColon (xs ++ ':' :: ys) = some (xs, ys) := by
  induction xs with
  | nil => simp [splitFirstColon]
  | cons c cs ih =>
    have hc : c ≠ ':' := fun hcq => h (hcq ▸ List.mem_cons_self c cs)
    have hcs : ':' ∉ cs := fun hm => h (List.mem_cons_of_mem c hm)
    simp [splitFirstColon, hc, ih hcs]

theorem splitFirstColon_mem (xs : List Char) (h : ':' ∈ xs) :
    splitFirstColon xs =
      some (xs.takeWhile (· ≠ ':'), (xs.dropWhile (· ≠ ':')).tail) := by
  induction xs with
  | nil => simp at h
  | cons c cs ih =>
    by_cases hc : c = ':'
    · subst hc
      simp [splitFirstColon, List.takeWhile, List.dropWhile]
    · have hcs : ':' ∈ cs := by
        rcases List.mem_cons.mp h with h1 | h2
        · exact absurd h1.symm hc
        · exact h2
      have hne : (c ≠ ':') = True := by simp [hc]
      simp [splitFirstColon, hc, ih hcs, List.takeWhile, List.dropWhile, hne]

theorem parseContainerImage_ne_crash (image : String) :
    ParseContainerImage image ≠ .crash := by
  unfold ParseContainerImage
  cases h : splitFirstColon image.data with
  | none => simp
  | some p => obtain ⟨a, b⟩ := p; simp

theorem decodeStrings_map_str (l : List String) :
    decodeStrings (l.map Json.str) = .ok l := by
  induction l with
  | nil => rfl
  | cons s ss ih => simp [decodeStrings, ih]

/-- C3: for every valid repository:tag image string, `ParseContainerImage`
splits at the first colon only, returning the part before the first colon
as the repository and the entire remainder as the tag. -/
theorem C3_parse_splits_at_first_colon (a b : String) (h : ':' ∉ a.data) :
    ParseContainerImage (a ++ ":" ++ b) = .ok (a, b) := by
  unfold ParseContainerImage
  have hdata : (a ++ ":" ++ b).data = a.data ++ ':' :: b.data := by
    simp [String.data_append]
  rw [hdata, splitFirstColon_append a.data b.data h]

/-- Witness for C3 at the concrete input of the claim:
parse of nginx:1.19 yields repository nginx and tag 1.19. -/
theorem C3_parse_splits_at_first_colon_witness :
    ParseContainerImage ("nginx" ++ ":" ++ "1.19") = .ok ("nginx", "1.19") :=
  C3_parse_splits_at_first_colon "nginx" "1.19" (by decide)

/-- C9: for every image string containing at least one colon the parser
never fails: the repository is the longest colon-free leading segment and
the tag is the entire remainder after the first colon, including any
further colons or slashes. -/
theorem C9_tag_is_entire_remainder (image : String) (h : ':' ∈ image.data) :
    ParseContainerImage image =
      .ok (String.mk (image.data.takeWhile (fun c => c ≠ ':')),
           String.mk ((image.data.dropWhile (fun c => c ≠ ':')).tail)) := by
  unfold ParseContainerImage
  rw [splitFirstColon_mem image.data h]

/-- Witness for C9 at the concrete input of the claim: an image whose
registry host carries a port parses to repository localhost and tag
5000/nginx:1.19 rather than being rejected or split at the last colon. -/
theorem C9_tag_is_entire_remainder_witness :
    ParseContainerImage "localhost:5000/nginx:1.19" =
      .ok ("localhost", "5000/nginx:1.19") := by
  have h := C9_tag_is_entire_remainder "localhost:5000/nginx:1.19" (by decide)
  exact h.trans (by decide)

/-- C2 (the code at the failing input): `GetEntrypointCmd` removes the
resolved registry host from the image name with `strings.TrimLeft`, a
character-set trim; on image myregistry.io/tomcat:9 with host
myregistry.io it also eats the leading characters tom of the repository,
leaving cat:9 where exact-prefix removal would leave tomcat:9. -/
theorem C2_trimleft_corrupts_image :
    normalizeImage "myregistry.io" "myregistry.io/tomcat:9" = "cat:9" := by
  decide

/-- C6: the registry session of `GetImageBlob` bypasses TLS certificate
verification if and only if the `REGISTRY_SKIP_VERIFY` environment value
is the string true; an unset variable (the empty string) yields a
verifying session, so the bypass is never the silent default. -/
theorem C6_skip_verify_is_opt_in :
    (∀ v : String, registrySessionInsecure v = true ↔ v = "true") ∧
    registrySessionInsecure "" = false := by
  constructor
  · intro v
    simp [registrySessionInsecure]
  · rfl

/-- C7: unmarshalling a config blob of shape
config.Cmd/config.Entrypoint populates `BlobResponse` from the nested
config object preserving array order; arrays absent from the JSON decode
as empty sequences rather than errors; and the claim's concrete blob
decodes to Cmd nginx -g daemon off; with an empty Entrypoint. -/
theorem C7_blob_decode_shape :
    unmarshalBlobResponse
        (.obj [("config",
          .obj [("Cmd", .arr [.str "nginx", .str "-g", .str "daemon off;"]),
                ("Entrypoint", .arr [])])]) =
      .ok { config := { Cmd := ["nginx", "-g", "daemon off;"], Entrypoint := [] } } ∧
    (∀ cmds entrypoints : List String,
      unmarshalBlobResponse
          (.obj [("config",
            .obj [("Cmd", .arr (cmds.map Json.str)),
                  ("Entrypoint", .arr (entrypoints.map Json.str))])]) =
        .ok { config := { Cmd := cmds, Entrypoint := entrypoints } }) ∧
    unmarshalBlobResponse (.obj [("config", .obj [])]) =
      .ok { config := { Cmd := [], Entrypoint := [] } } := by
  refine ⟨rfl, ?_, rfl⟩
  intro cmds entrypoints
  simp [unmarshalBlobResponse, decodeConfig, jsonLookup, decodeStringList,
    decodeStrings_map_str]

/-- C1 (counterexample): on the image nginx, which lacks a tag, the
resolution does not return a typed MissingTagError value — `GetImageBlob`
ends in `logger.Fatal`, terminating the process. -/
theorem C1_failure_terminates_process :
    GetImageBlob stubRegistryEnv "https://registry-1.docker.io/" "" "" "nginx" =
      .fatal "Cannot find tag for image" := by
  decide

theorem getImageBlob_no_panic_ok_iff_succeeds (Hub Bytes : Type)
    (env : RegistryEnv Hub Bytes) (url username password image : String) :
    (GetImageBlob env url username password image).isCrash = false ∧
    (GetImageBlob env url username password image).isOk =
      GetImageBlobSucceeds env url username password image := by
  unfold GetImageBlob GetImageBlobSucceeds
  cases hp : ParseContainerImage image with
  | crash => exact absurd hp (parseContainerImage_ne_crash image)
  | fatal m => exact ⟨rfl, rfl⟩
  | ok p =>
    obtain ⟨imageName, tag⟩ := p
    cases hn : env.newRegistry (registrySessionInsecure env.registrySkipVerify)
        url username password with
    | error e => simp [GoOutcome.isCrash, GoOutcome.isOk, hn]
    | ok hub =>
      cases hm : env.manifestConfigDigest hub imageName tag with
      | error e => simp [GoOutcome.isCrash, GoOutcome.isOk, hn, hm]
      | ok digest =>
        cases hd : env.downloadBlob hub imageName digest with
        | error e => simp [GoOutcome.isCrash, GoOutcome.isOk, hn, hm, hd]
        | ok bytes =>
          cases hr : env.readAll bytes with
          | error e => simp [GoOutcome.isCrash, GoOutcome.isOk, hn, hm, hd, hr]
          | ok raw =>
            cases hj : env.jsonParse raw with
            | error e =>
              simp [GoOutcome.isCrash, GoOutcome.isOk, hn, hm, hd, hr, hj]
            | ok j =>
              cases hu : unmarshalBlobResponse j with
              | error e =>
                simp [GoOutcome.isCrash, GoOutcome.isOk, hn, hm, hd, hr, hj, hu]
              | ok msg =>
                simp [GoOutcome.isCrash, GoOutcome.isOk, hn, hm, hd, hr, hj, hu]

theorem load_secret_read_failure_fatal (kenv : KubeEnv) (k : K8s)
    (container : Container) (podSpec : PodSpec)
    (ref : LocalObjectReference) (rest : List LocalObjectReference)
    (e : String)
    (hspec : podSpec.imagePullSecrets = ref :: rest)
    (hname : ref.name ≠ "")
    (hread : kenv.readDockerSecret k.Namespace ref.name = .error e) :
    Load kenv k container podSpec = .fatal "Cannot read imagePullSecrets" := by
  simp [Load, hspec, hname, hread]

theorem load_secret_decode_failure_fatal (kenv : KubeEnv) (k : K8s)
    (container : Container) (podSpec : PodSpec)
    (ref : LocalObjectReference) (rest : List LocalObjectReference)
    (data : List (String × String)) (e : String)
    (hspec : podSpec.imagePullSecrets = ref :: rest)
    (hname : ref.name ≠ "")
    (hread : kenv.readDockerSecret k.Namespace ref.name = .ok data)
    (hdecode : kenv.unmarshalDockerCreds (dataIndex data dockerConfigJsonKey) =
      .error e) :
    Load kenv k container podSpec =
      .fatal "Cannot unmarshal docker configuration from imagePullSecrets" := by
  simp [Load, hspec, hname, hread, hdecode]

theorem getEntrypointCmd_propagates_load_fatal (Hub Bytes : Type)
    (kenv : KubeEnv) (renv : RegistryEnv Hub Bytes) (ns : String)
    (container : Container) (podSpec : PodSpec) (m : String)
    (hload : Load kenv (initialK8s ns) container podSpec = .fatal m) :
    GetEntrypointCmd kenv renv ns container podSpec = .fatal m := by
  simp [GetEntrypointCmd, hload]

theorem getEntrypointCmd_ok_iff_succeeds (Hub Bytes : Type)
    (kenv : KubeEnv) (renv : RegistryEnv Hub Bytes) (ns : String)
    (container : Container) (podSpec : PodSpec) :
    (GetEntrypointCmd kenv renv ns container podSpec).isOk =
      GetEntrypointCmdSucceeds kenv renv ns container podSpec := by
  unfold GetEntrypointCmd GetEntrypointCmdSucceeds
  cases hl : Load kenv (initialK8s ns) container podSpec with
  | fatal m => rfl
  | crash => rfl
  | ok podInfo =>
    exact (getImageBlob_no_panic_ok_iff_succeeds Hub Bytes renv _ _ _ _).2

/-- C1 (as amended): every failure during a resolution — missing image
tag, secret read failure, secret payload decode failure, registry session
setup, manifest fetch, blob download, blob read, blob JSON decode — aborts
the resolution by terminating the process with `logger.Fatal`, with the
message the source logs, rather than returning it as a typed error value;
`Load` failures propagate through `GetEntrypointCmd` as the same fatal
termination, and the full resolution returns a value exactly when every
stage succeeds, so no partial `ContainerImageConfig` is ever returned. -/
theorem C1_failures_are_fatal :
    (∀ (Hub Bytes : Type) (env : RegistryEnv Hub Bytes)
       (url username password image : String),
      (GetImageBlob env url username password image).isCrash = false ∧
      (GetImageBlob env url username password image).isOk =
        GetImageBlobSucceeds env url username password image) ∧
    (∀ (kenv : KubeEnv) (k : K8s) (container : Container) (podSpec : PodSpec)
       (ref : LocalObjectReference) (rest : List LocalObjectReference)
       (e : String),
      podSpec.imagePullSecrets = ref :: rest → ref.name ≠ "" →
      kenv.readDockerSecret k.Namespace ref.name = .error e →
      Load kenv k container podSpec = .fatal "Cannot read imagePullSecrets") ∧
    (∀ (kenv : KubeEnv) (k : K8s) (container : Container) (podSpec : PodSpec)
       (ref : LocalObjectReference) (rest : List LocalObjectReference)
       (data : List (String × String)) (e : String),
      podSpec.imagePullSecrets = ref :: rest → ref.name ≠ "" →
      kenv.readDockerSecret k.Namespace ref.name = .ok data →
      kenv.unmarshalDockerCreds (dataIndex data dockerConfigJsonKey) =
        .error e →
      Load kenv k container podSpec =
        .fatal "Cannot unmarshal docker configuration from imagePullSecrets") ∧
    (∀ (Hub Bytes : Type) (kenv : KubeEnv) (renv : RegistryEnv Hub Bytes)
       (ns : String) (container : Container) (podSpec : PodSpec) (m : String),
      Load kenv (initialK8s ns) container podSpec = .fatal m →
      GetEntrypointCmd kenv renv ns container podSpec = .fatal m) ∧
    (∀ (Hub Bytes : Type) (kenv : KubeEnv) (renv : RegistryEnv Hub Bytes)
       (ns : String) (container : Container) (podSpec : PodSpec),
      (GetEntrypointCmd kenv renv ns container podSpec).isOk =
        GetEntrypointCmdSucceeds kenv renv ns container podSpec) := by
  refine ⟨?_, ?_, ?_, ?_, ?_⟩
  · intro Hub Bytes env url username password image
    exact getImageBlob_no_panic_ok_iff_succeeds Hub Bytes env
      url username password image
  · intro kenv k container podSpec ref rest e hspec hname hread
    exact load_secret_read_failure_fatal kenv k container podSpec ref rest e
      hspec hname hread
  · intro kenv k container podSpec ref rest data e hspec hname hread hdecode
    exact load_secret_decode_failure_fatal kenv k container podSpec ref rest
      data e hspec hname hread hdecode
  · intro Hub Bytes kenv renv ns container podSpec m hload
    exact getEntrypointCmd_propagates_load_fatal Hub Bytes kenv renv ns
      container podSpec m hload
  · intro Hub Bytes kenv renv ns container podSpec
    exact getEntrypointCmd_ok_iff_succeeds Hub Bytes kenv renv ns
      container podSpec

/-- C4: `parseDockerConfig` derives the registry address from the selected
auths host by prepending https:// exactly when the host does not already
start with https:// (and using it verbatim when it does), and copies that
host's username and password into the result; in particular the payload
auths myregistry.io u p resolves to address https://myregistry.io with
username u and password p. -/
theorem C4_registry_address_and_creds :
    (∀ (k : K8s) (host : String) (auth : AuthConfig)
       (rest : List (String × AuthConfig)),
      parseDockerConfig k { Auths := (host, auth) :: rest } =
        .ok { k with
          RegistryName := host
          RegistryAddress :=
            if startsWithString host "https://" then host
            else "https://" ++ host
          RegistryUsername := auth.Username
          RegistryPassword := auth.Password }) ∧
    parseDockerConfig (initialK8s "ns")
        { Auths := [("myregistry.io", { Username := "u", Password := "p" })] } =
      .ok { initialK8s "ns" with
        RegistryName := "myregistry.io"
        RegistryAddress := "https://myregistry.io"
        RegistryUsername := "u"
        RegistryPassword := "p" } := by
  constructor
  · intro k host auth rest
    have hfind : ((host, auth) :: rest).find? (fun p => p.1 == host) =
        some (host, auth) :=
      List.find?_cons_of_pos _ (by simp)
    by_cases h : startsWithString host "https://" <;>
      simp [parseDockerConfig, mapIndex, hfind, h]
  · decide

/-- C5: with no image-pull secrets on the pod spec, `Load` returns the
anonymous default — only the image is set, username, password and registry
address stay empty — and `GetEntrypointCmd` then invokes the registry
client with the public registry's canonical HTTPS endpoint
https://registry-1.docker.io/ and empty credentials. -/
theorem C5_no_pull_secret_anonymous_default :
    ∀ (Hub Bytes : Type) (kenv : KubeEnv) (renv : RegistryEnv Hub Bytes)
      (ns : String) (container : Container),
    Load kenv (initialK8s ns) container { imagePullSecrets := [] } =
      .ok { initialK8s ns with Image := container.image } ∧
    GetEntrypointCmd kenv renv ns container { imagePullSecrets := [] } =
      GetImageBlob renv "https://registry-1.docker.io/" "" "" container.image := by
  intro Hub Bytes kenv renv ns container
  exact ⟨rfl, rfl⟩

/-- C8: `parseDockerConfig` is not total on an empty auths mapping — the
unguarded MapKeys index makes it panic exactly when the map has no entry,
and it never reports the case as a fatal MalformedSecretError; with at
least one entry it is well-defined. -/
theorem C8_empty_auths_panics :
    ∀ (k : K8s) (creds : DockerCreds),
    (parseDockerConfig k creds = .crash ↔ creds.Auths = []) ∧
    (parseDockerConfig k creds).isFatal = false := by
  intro k creds
  obtain ⟨auths⟩ := creds
  cases auths with
  | nil => exact ⟨by simp [parseDockerConfig], rfl⟩
  | cons hd tl =>
    obtain ⟨host, auth⟩ := hd
    constructor
    · constructor
      · intro hcrash
        simp [parseDockerConfig] at hcrash
      · intro habs
        simp at habs
    · simp [parseDockerConfig, GoOutcome.isFatal]

/-- C10: when the pod's first image-pull-secret reference has an empty
name, `Load` reads no Secret and leaves registry name, registry address,
username and password at their empty defaults, setting only the image (and
recording the empty secret name); `GetEntrypointCmd` then resolves exactly
as in the no-pull-secret case, against the default public registry with
empty credentials, whatever the Kubernetes oracle would have answered. -/
theorem C10_empty_secret_name_reads_nothing :
    ∀ (Hub Bytes : Type) (kenv : KubeEnv) (renv : RegistryEnv Hub Bytes)
      (ns : String) (container : Container)
      (rest : List LocalObjectReference),
    Load kenv (initialK8s ns) container
        { imagePullSecrets := { name := "" } :: rest } =
      .ok { initialK8s ns with Image := container.image } ∧
    GetEntrypointCmd kenv renv ns container
        { imagePullSecrets := { name := "" } :: rest } =
      GetEntrypointCmd kenv renv ns container { imagePullSecrets := [] } := by
  intro Hub Bytes kenv renv ns container rest
  exact ⟨rfl, rfl⟩
